import Mathlib

/-!
Verification of the EVtrains timetable scripts.

The repository consists of several historical variants of two Node.js
scripts, `scripts/fetch_rtt.js` (single-service status board) and
`scripts/xfer_plan.js` (three-station transfer matcher).  This file gives a
shallow embedding of the pure computational core of those scripts and proves
or refutes the specification claims about them.

Modelling conventions:
* Civil `HH:MM` / `HHMM` times are represented by minute-of-day values
  (`Nat`); every comparison in the source goes through `toMin`-style
  conversion, and for 4-digit `HHMM` digit strings the JS string order used
  in one filter coincides with the numeric order.  The round-trip claim
  about the actual string conversions is settled over real Lean `String`s.
* Calendar dates are represented by day numbers (`Int`); `isoShiftDays`
  becomes integer addition.
* JS `null` / `undefined` / absent fields are `Option.none`; `a || b`
  becomes `Option.getD` / `Option.orElse`, `a ?? b` becomes `Option.getD`.
* Remote HTTP lookups are oracles passed in as function arguments returning
  `Except` (a rejected promise is `.error`); the `main` bodies of the scripts
  become pure functions of those oracles, of "now", and of the wall-clock
  timestamp used for the `generatedAt` field.
-/

/-! ## JS string and number helpers

From `scripts/fetch_rtt.js` (second variant, lines 188-201):
`hhmmToMins` parses the first two and next two characters with `Number`,
`minsToHHMM` normalises with `((mins % 1440) + 1440) % 1440` (JS `%` is the
truncated remainder, `Int.tmod`) and pads both components with
`String(n).padStart(2, "0")`. -/

/-- Value of a decimal digit character, `none` when not a digit. -/
def digitVal (c : Char) : Option Nat :=
  if c.isDigit then some (c.toNat - 48) else none

/-- Decimal parse of a character list; `none` (JS `NaN`) on any non-digit. -/
def parseDigits (cs : List Char) : Option Nat :=
  cs.foldl (fun acc c =>
    match acc, digitVal c with
    | some a, some d => some (a * 10 + d)
    | _, _ => none) (some 0)

/-- JS `Number(s)` on the digit strings that occur here: `Number("") = 0`,
a digit string parses as decimal, anything else is `NaN` (`none`). -/
def jsNumber (s : String) : Option Nat :=
  if s.length = 0 then some 0 else parseDigits s.data

/-- JS `s.slice(a, b)` for `a ≤ b` (the only use sites). -/
def strSlice (s : String) (a b : Nat) : String :=
  ⟨(s.data.drop a).take (b - a)⟩

/-- `hhmmToMins` from `fetch_rtt.js` (second variant, lines 188-194). -/
def hhmmToMins (hhmm : String) : Option Nat :=
  if hhmm.length < 3 then none
  else
    match jsNumber (strSlice hhmm 0 2), jsNumber (strSlice hhmm 2 4) with
    | some h, some m => some (h * 60 + m)
    | _, _ => none

/-- JS `s.padStart(2, "0")`. -/
def jsPadStart2 (s : String) : String :=
  if s.length < 2 then "0" ++ s else s

/-- JS `String(n)` for a natural number. -/
def natToDec (n : Nat) : String := toString n

/-- Body of `minsToHHMM` after the normalisation line: build `"HHMM"` from a
minute count already known to lie in `[0, 1440)`. -/
def minsToHHMMcore (n : Nat) : String :=
  jsPadStart2 (natToDec (n / 60)) ++ jsPadStart2 (natToDec (n % 60))

/-- The JS normalisation `((mins % (24*60)) + (24*60)) % (24*60)`; JS `%` is
the truncated remainder `Int.tmod`. -/
def jsNormMins (mins : Int) : Int :=
  ((mins.tmod (24 * 60)) + 24 * 60).tmod (24 * 60)

/-- `minsToHHMM` from `fetch_rtt.js` (second variant, lines 196-201). -/
def minsToHHMM (mins : Int) : String :=
  minsToHHMMcore (jsNormMins mins).toNat

/-! Support lemmas for the round-trip claim C10. -/

theorem neg_tmod_eq (a : Int) : (-a).tmod 1440 = -(a.tmod 1440) := by
  simp [Int.tmod_def, Int.neg_tdiv]
  ring

/-- The JS double-`%` normalisation computes the mathematical (Euclidean)
residue `a % 1440`. -/
theorem jsNormMins_eq_emod (a : Int) : jsNormMins a = a % 1440 := by
  show ((a.tmod 1440) + 1440).tmod 1440 = a % 1440
  have hub : a.tmod 1440 < 1440 := Int.tmod_lt_of_pos a (by norm_num)
  have hlb : -1440 < a.tmod 1440 := by
    rcases le_or_lt 0 a with h | h
    · have := Int.tmod_nonneg (a := a) 1440 h; omega
    · have h3 : (-a).tmod 1440 < 1440 := Int.tmod_lt_of_pos (-a) (by norm_num)
      have h4 : (-a).tmod 1440 = -(a.tmod 1440) := neg_tmod_eq a
      omega
  have h0 : (0 : Int) ≤ a.tmod 1440 + 1440 := by omega
  rw [Int.tmod_eq_emod h0 (by norm_num)]
  have hd : a.tmod 1440 = a - 1440 * (a.tdiv 1440) := by
    have := Int.tmod_add_tdiv a 1440
    omega
  rw [hd]
  have hr : a - 1440 * a.tdiv 1440 + 1440 = a + 1440 * (1 - a.tdiv 1440) := by ring
  rw [hr, Int.add_mul_emod_self_left]

set_option maxRecDepth 2000 in
theorem pad2_digits : ∀ k < 100, (jsPadStart2 (natToDec k)).data
    = [Char.ofNat (48 + k / 10), Char.ofNat (48 + k % 10)] := by decide

theorem digitVal_ofNat : ∀ x < 10, digitVal (Char.ofNat (48 + x)) = some x := by decide

theorem jsNumber_two (u v : Char) (x y : Nat)
    (hu : digitVal u = some x) (hv : digitVal v = some y) :
    jsNumber ⟨[u, v]⟩ = some (x * 10 + y) := by
  simp [jsNumber, parseDigits, String.length, hu, hv]

theorem hhmmToMins_four (a b c d : Char) :
    hhmmToMins ⟨[a, b, c, d]⟩ =
      match jsNumber ⟨[a, b]⟩, jsNumber ⟨[c, d]⟩ with
      | some h, some m => some (h * 60 + m)
      | _, _ => none := rfl

/-- Parsing back the rendered `HHMM` string recovers any in-range minute
count. -/
theorem hhmmToMins_minsToHHMMcore (n : Nat) (hn : n < 1440) :
    hhmmToMins (minsToHHMMcore n) = some n := by
  have hq : n / 60 < 100 := by omega
  have hr : n % 60 < 100 := by
    have := Nat.mod_lt n (y := 60) (by norm_num); omega
  have hdata : (minsToHHMMcore n).data =
      [Char.ofNat (48 + n / 60 / 10), Char.ofNat (48 + n / 60 % 10),
       Char.ofNat (48 + n % 60 / 10), Char.ofNat (48 + n % 60 % 10)] := by
    show (jsPadStart2 (natToDec (n / 60)) ++ jsPadStart2 (natToDec (n % 60))).data = _
    rw [String.data_append, pad2_digits (n / 60) hq, pad2_digits (n % 60) hr]
    rfl
  have hmk : minsToHHMMcore n =
      ⟨[Char.ofNat (48 + n / 60 / 10), Char.ofNat (48 + n / 60 % 10),
        Char.ofNat (48 + n % 60 / 10), Char.ofNat (48 + n % 60 % 10)]⟩ :=
    congrArg String.mk hdata
  rw [hmk, hhmmToMins_four]
  rw [jsNumber_two _ _ (n / 60 / 10) (n / 60 % 10)
        (digitVal_ofNat _ (by omega)) (digitVal_ofNat _ (by omega)),
      jsNumber_two _ _ (n % 60 / 10) (n % 60 % 10)
        (digitVal_ofNat _ (by omega)) (digitVal_ofNat _ (by omega))]
  have h1 : n / 60 / 10 * 10 + n / 60 % 10 = n / 60 := by omega
  have h2 : n % 60 / 10 * 10 + n % 60 % 10 = n % 60 := by omega
  rw [h1, h2]
  show some (n / 60 * 60 + n % 60) = some n
  have h3 : n / 60 * 60 + n % 60 = n := by omega
  rw [h3]

/-- C10: for every integer `m` with `0 ≤ m ≤ 1439`, converting `m` to an
`HHMM` string and back yields `m`; and for every integer input, `minsToHHMM`
wraps modulo 24 hours into `[0000, 2359]`: it agrees with `minsToHHMM` of the
Euclidean residue, and parsing its output returns that residue, which lies in
`[0, 1440)`. -/
theorem c10_hhmm_roundtrip :
    (∀ n : Nat, n ≤ 1439 → hhmmToMins (minsToHHMM (n : Int)) = some n) ∧
    (∀ z : Int, minsToHHMM z = minsToHHMM (z % 1440) ∧
      hhmmToMins (minsToHHMM z) = some (z % 1440).toNat ∧
      0 ≤ z % 1440 ∧ z % 1440 < 1440) := by
  have hrange : ∀ z : Int, 0 ≤ z % 1440 ∧ z % 1440 < 1440 := by
    intro z
    exact ⟨Int.emod_nonneg z (by norm_num), Int.emod_lt_of_pos z (by norm_num)⟩
  have hcore : ∀ z : Int, minsToHHMM z = minsToHHMMcore (z % 1440).toNat := by
    intro z
    show minsToHHMMcore (jsNormMins z).toNat = _
    rw [jsNormMins_eq_emod]
  have hparse : ∀ z : Int, hhmmToMins (minsToHHMM z) = some (z % 1440).toNat := by
    intro z
    rw [hcore z]
    apply hhmmToMins_minsToHHMMcore
    have := hrange z
    omega
  refine ⟨fun n hn => ?_, fun z => ⟨?_, hparse z, hrange z⟩⟩
  · rw [hparse (n : Int)]
    have hm : ((n : Int)) % 1440 = (n : Int) := by omega
    rw [hm]
    simp
  · rw [hcore z, hcore (z % 1440), Int.emod_emod_of_dvd z (by norm_num)]

/-- Concrete instance of C10: `474` minutes renders as `"0754"` and parses
back to `474`. -/
theorem c10_witness :
    hhmmToMins (minsToHHMM ((474 : Nat) : Int)) = some 474 ∧
    hhmmToMins (minsToHHMM (-6 : Int)) = some ((-6 : Int) % 1440).toNat :=
  ⟨c10_hhmm_roundtrip.1 474 (by norm_num), (c10_hhmm_roundtrip.2 (-6)).2.1⟩

/-! ## Stop calls and status classifiers

An RTT `locations[]` entry, restricted to the fields the classifiers read.
`HH:MM` strings are represented by minute-of-day values, absent / empty
fields by `none`. -/

structure Loc where
  crs : String := ""
  gbttBookedArrival : Option Nat := none
  gbttBookedDeparture : Option Nat := none
  realtimeArrival : Option Nat := none
  realtimeDeparture : Option Nat := none
  platform : Option String := none
  isCancelled : Bool := false
  deriving DecidableEq

namespace FetchRtt

/-- `statusFrom` from `fetch_rtt.js` (first variant, lines 36-41); the same
code appears in `xfer_plan.js` lines 71-76, `part_003` lines 72-77 and
`part_005` lines 45-50.  A realtime value counts as late whenever it merely
differs (`!==`) from the booked value. -/
def statusFrom (o d : Loc) : String :=
  if o.isCancelled || d.isCancelled then "cancelled"
  else
    let depLate :=
      match o.gbttBookedDeparture, o.realtimeDeparture with
      | some b, some r => r != b
      | _, _ => false
    let arrLate :=
      match d.gbttBookedArrival, d.realtimeArrival with
      | some b, some r => r != b
      | _, _ => false
    if depLate || arrLate then "delayed" else "on_time"

end FetchRtt

namespace Part000

/-- The derived per-station record built by `callInfo` in `part_000` lines
76-96 (identically in `part_001` lines 81-101 and `part_004` lines 67-86). -/
structure CallInfo where
  bookedArrival : Option Nat := none
  bookedDeparture : Option Nat := none
  realtimeArrival : Option Nat := none
  realtimeDeparture : Option Nat := none
  arrivalDelayMins : Option Int := none
  departureDelayMins : Option Int := none
  platform : Option String := none
  isCancelled : Bool := false
  deriving DecidableEq

/-- `diffMinutes` from `part_000` line 22: signed difference of two
minute-of-day values. -/
def diffMinutes (a b : Nat) : Int := (a : Int) - b

/-- The record `callInfo` builds for a present call (`part_000` lines
78-95): delays are `realtime − booked`, `null` when either side is
absent. -/
def callInfoL (c : Loc) : CallInfo :=
    { bookedArrival := c.gbttBookedArrival
      bookedDeparture := c.gbttBookedDeparture
      realtimeArrival := c.realtimeArrival
      realtimeDeparture := c.realtimeDeparture
      arrivalDelayMins :=
        match c.realtimeArrival, c.gbttBookedArrival with
        | some r, some b => some (diffMinutes r b)
        | _, _ => none
      departureDelayMins :=
        match c.realtimeDeparture, c.gbttBookedDeparture with
        | some r, some b => some (diffMinutes r b)
        | _, _ => none
      platform := c.platform
      isCancelled := c.isCancelled }

/-- `callInfo` from `part_000` lines 76-96: `null` input propagates. -/
def callInfo (call : Option Loc) : Option CallInfo :=
  call.map callInfoL

/-- `overallStatus` from `part_000` lines 98-104 (identically in `part_001`
lines 103-109): cancelled, else delayed on a positive delay, else early on a
negative delay, else on time. -/
def overallStatus (origin dest : Option CallInfo) : String :=
  if (origin.map (·.isCancelled)).getD false || (dest.map (·.isCancelled)).getD false then
    "cancelled"
  else if 0 < (origin.bind (·.departureDelayMins)).getD 0 ∨
      0 < (dest.bind (·.arrivalDelayMins)).getD 0 then "delayed"
  else if (origin.bind (·.departureDelayMins)).getD 0 < 0 ∨
      (dest.bind (·.arrivalDelayMins)).getD 0 < 0 then "early"
  else "on_time"

end Part000

namespace Part002

/-- `isLater` from `part_002` lines 148-152: true only when both times are
present and the realtime one is strictly later. -/
def isLater (rt booked : Option Nat) : Bool :=
  match rt, booked with
  | some a, some b => decide (b < a)
  | _, _ => false

/-- `statusFrom` from `part_002` lines 154-161: delayed only when realtime
is strictly later than booked. -/
def statusFrom (o d : Loc) : String :=
  if o.isCancelled || d.isCancelled then "cancelled"
  else if isLater o.realtimeDeparture o.gbttBookedDeparture ||
      isLater d.realtimeArrival d.gbttBookedArrival then "delayed"
  else "on_time"

end Part002

namespace FetchRtt2

/-- `statusFromDelays` from `fetch_rtt.js` (second variant, lines 234-241):
the worst of the two delays (`?? 0`) must reach one minute. -/
def statusFromDelays (depDelay arrDelay : Option Int) (cancelled : Bool) : String :=
  if cancelled then "cancelled"
  else
    let d := depDelay.getD 0
    let a := arrDelay.getD 0
    let worst := max d a
    if 1 ≤ worst then "delayed" else "on_time"

end FetchRtt2

namespace Part004

/-- `statusFrom` from `part_004` lines 88-95: like `overallStatus` of `part_000`, including the distinct `early` state. -/
def statusFrom (legStart legEnd : Option Part000.CallInfo) : String :=
  if (legStart.map (·.isCancelled)).getD false || (legEnd.map (·.isCancelled)).getD false then
    "cancelled"
  else if 0 < (legStart.bind (·.departureDelayMins)).getD 0 ∨
      0 < (legEnd.bind (·.arrivalDelayMins)).getD 0 then "delayed"
  else if (legStart.bind (·.departureDelayMins)).getD 0 < 0 ∨
      (legEnd.bind (·.arrivalDelayMins)).getD 0 < 0 then "early"
  else "on_time"

end Part004

/-! Specification-side predicates for claims about the classifiers: the
observed (realtime) time at a stop being at least one minute later, or
strictly earlier, than the booked one. -/

/-- The observed departure at the origin is at least one minute later than
booked (both present). -/
def depObservedLater (o : Loc) : Prop :=
  ∃ b r, o.gbttBookedDeparture = some b ∧ o.realtimeDeparture = some r ∧ b + 1 ≤ r

/-- The observed arrival at the destination is at least one minute later
than booked (both present). -/
def arrObservedLater (d : Loc) : Prop :=
  ∃ b r, d.gbttBookedArrival = some b ∧ d.realtimeArrival = some r ∧ b + 1 ≤ r

/-- The observed departure at the origin is strictly earlier than booked. -/
def depObservedEarlier (o : Loc) : Prop :=
  ∃ b r, o.gbttBookedDeparture = some b ∧ o.realtimeDeparture = some r ∧ r < b

/-- The observed arrival at the destination is strictly earlier than
booked. -/
def arrObservedEarlier (d : Loc) : Prop :=
  ∃ b r, d.gbttBookedArrival = some b ∧ d.realtimeArrival = some r ∧ r < b

/-! Helper characterisations of the classifier conditions. -/

theorem neq_match_iff (x y : Option Nat) :
    (match x, y with
      | some b, some r => r != b
      | _, _ => false) = true ↔ ∃ b r, x = some b ∧ y = some r ∧ r ≠ b := by
  cases x <;> cases y <;> simp

theorem depDelay_callInfo (o : Loc) :
    ((Part000.callInfo (some o)).bind (·.departureDelayMins)).getD 0 =
      match o.realtimeDeparture, o.gbttBookedDeparture with
      | some r, some b => (r : Int) - b
      | _, _ => 0 := by
  cases hr : o.realtimeDeparture <;> cases hb : o.gbttBookedDeparture <;>
    simp [Part000.callInfo, Part000.callInfoL, Part000.diffMinutes, hr, hb]

theorem arrDelay_callInfo (d : Loc) :
    ((Part000.callInfo (some d)).bind (·.arrivalDelayMins)).getD 0 =
      match d.realtimeArrival, d.gbttBookedArrival with
      | some r, some b => (r : Int) - b
      | _, _ => 0 := by
  cases hr : d.realtimeArrival <;> cases hb : d.gbttBookedArrival <;>
    simp [Part000.callInfo, Part000.callInfoL, Part000.diffMinutes, hr, hb]

theorem depDelay_pos_iff (o : Loc) :
    (0 < ((Part000.callInfo (some o)).bind (·.departureDelayMins)).getD 0) ↔
      depObservedLater o := by
  rw [depDelay_callInfo]
  unfold depObservedLater
  cases hr : o.realtimeDeparture <;> cases hb : o.gbttBookedDeparture <;>
    simp <;> omega

theorem arrDelay_pos_iff (d : Loc) :
    (0 < ((Part000.callInfo (some d)).bind (·.arrivalDelayMins)).getD 0) ↔
      arrObservedLater d := by
  rw [arrDelay_callInfo]
  unfold arrObservedLater
  cases hr : d.realtimeArrival <;> cases hb : d.gbttBookedArrival <;>
    simp <;> omega

theorem depDelay_neg_iff (o : Loc) :
    (((Part000.callInfo (some o)).bind (·.departureDelayMins)).getD 0 < 0) ↔
      depObservedEarlier o := by
  rw [depDelay_callInfo]
  unfold depObservedEarlier
  cases hr : o.realtimeDeparture <;> cases hb : o.gbttBookedDeparture <;>
    simp <;> omega

theorem arrDelay_neg_iff (d : Loc) :
    (((Part000.callInfo (some d)).bind (·.arrivalDelayMins)).getD 0 < 0) ↔
      arrObservedEarlier d := by
  rw [arrDelay_callInfo]
  unfold arrObservedEarlier
  cases hr : d.realtimeArrival <;> cases hb : d.gbttBookedArrival <;>
    simp <;> omega

theorem callInfo_isCancelled (o : Loc) :
    ((Part000.callInfo (some o)).map (·.isCancelled)).getD false = o.isCancelled := by
  simp [Part000.callInfo, Part000.callInfoL]

/-- C1 counterexample: with booked departure 07:44 (minute 464) and realtime
departure 07:43 (minute 463) — one minute early, not cancelled — the shipped
`statusFrom` returns `"delayed"`, although neither side is observed at least
one minute later than booked; the claim says `"delayed"` must not be
returned here. -/
theorem c1_counterexample :
    (Loc.isCancelled { gbttBookedDeparture := some 464, realtimeDeparture := some 463 }
        = false) ∧
    (Loc.isCancelled ({} : Loc) = false) ∧
    FetchRtt.statusFrom
        { gbttBookedDeparture := some 464, realtimeDeparture := some 463 } {} = "delayed" ∧
    ¬ depObservedLater { gbttBookedDeparture := some 464, realtimeDeparture := some 463 } ∧
    ¬ arrObservedLater ({} : Loc) := by
  refine ⟨rfl, rfl, rfl, ?_, ?_⟩
  · rintro ⟨b, r, hb, hr, hle⟩
    simp at hb hr
    omega
  · rintro ⟨b, r, hb, hr, hle⟩
    simp at hb

/-- C1 (amended): for non-cancelled pairs, `statusFrom` (the variant shared
by `fetch_rtt.js` v1, `xfer_plan.js` v1, `part_003` and `part_005`) returns
`"delayed"` exactly when an observed time merely differs from the booked one
— an observed time earlier than booked also yields `"delayed"` — and it
never returns `"early"`; the `overallStatus` classifier of
`part_000`/`part_001` does satisfy the claimed rule: `"delayed"` exactly on
a ≥ 1 minute late observation, `"early"` only when not delayed and some
observation is strictly early. -/
theorem c1_statusFrom_amended :
    (∀ o d : Loc, o.isCancelled = false → d.isCancelled = false →
      (FetchRtt.statusFrom o d = "delayed" ↔
        ((∃ b r, o.gbttBookedDeparture = some b ∧ o.realtimeDeparture = some r ∧ r ≠ b) ∨
         (∃ b r, d.gbttBookedArrival = some b ∧ d.realtimeArrival = some r ∧ r ≠ b))) ∧
      FetchRtt.statusFrom o d ≠ "early") ∧
    (∀ o d : Loc, o.isCancelled = false → d.isCancelled = false →
      (Part000.overallStatus (Part000.callInfo (some o)) (Part000.callInfo (some d))
          = "delayed" ↔ depObservedLater o ∨ arrObservedLater d) ∧
      (Part000.overallStatus (Part000.callInfo (some o)) (Part000.callInfo (some d))
          = "early" ↔
        ¬ (depObservedLater o ∨ arrObservedLater d) ∧
          (depObservedEarlier o ∨ arrObservedEarlier d))) := by
  constructor
  · intro o d ho hd
    have hiffdep := neq_match_iff o.gbttBookedDeparture o.realtimeDeparture
    have hiffarr := neq_match_iff d.gbttBookedArrival d.realtimeArrival
    unfold FetchRtt.statusFrom
    rw [ho, hd]
    by_cases hdep : (match o.gbttBookedDeparture, o.realtimeDeparture with
        | some b, some r => r != b
        | _, _ => false) = true <;>
      by_cases harr : (match d.gbttBookedArrival, d.realtimeArrival with
          | some b, some r => r != b
          | _, _ => false) = true <;>
      simp_all <;>
      exact ⟨hiffdep, hiffarr⟩
  · intro o d ho hd
    have h1 := depDelay_pos_iff o
    have h2 := arrDelay_pos_iff d
    have h3 := depDelay_neg_iff o
    have h4 := arrDelay_neg_iff d
    unfold Part000.overallStatus
    rw [callInfo_isCancelled, callInfo_isCancelled, ho, hd]
    by_cases hpos : (0 < ((Part000.callInfo (some o)).bind (·.departureDelayMins)).getD 0 ∨
        0 < ((Part000.callInfo (some d)).bind (·.arrivalDelayMins)).getD 0) <;>
      by_cases hneg : (((Part000.callInfo (some o)).bind (·.departureDelayMins)).getD 0 < 0 ∨
          ((Part000.callInfo (some d)).bind (·.arrivalDelayMins)).getD 0 < 0) <;>
      simp_all

/-- Witness for the amended theorem of C1 at a concrete input: origin one minute
early, nothing else observed. -/
theorem c1_witness :
    FetchRtt.statusFrom
        { gbttBookedDeparture := some 464, realtimeDeparture := some 463 } {} = "delayed" ∧
    Part000.overallStatus
        (Part000.callInfo
          (some { gbttBookedDeparture := some 464, realtimeDeparture := some 463 }))
        (Part000.callInfo (some ({} : Loc))) = "early" := by
  constructor
  · exact ((c1_statusFrom_amended.1
      { gbttBookedDeparture := some 464, realtimeDeparture := some 463 } {} rfl rfl).1).mpr
      (Or.inl ⟨464, 463, rfl, rfl, by decide⟩)
  · exact ((c1_statusFrom_amended.2
      { gbttBookedDeparture := some 464, realtimeDeparture := some 463 } {} rfl rfl).2).mpr
      ⟨by rintro (⟨b, r, hb, hr, h⟩ | ⟨b, r, hb, hr, h⟩) <;> simp at hb hr <;> omega,
       Or.inl ⟨464, 463, rfl, rfl, by decide⟩⟩

/-- C2: whenever the `isCancelled` flag of either side is set, the classifiers
return `"cancelled"` regardless of any delay values.  For
`fetch_rtt.js` v2 the flag the caller passes to `statusFromDelays` is the
disjunction `origin.isCancelled || dest.isCancelled || detail.isCancelled`
(lines 282-286), so either side being cancelled forces the result; for
`statusFrom` of `part_004` the check is direct. -/
theorem c2_cancel_dominates :
    (∀ (dep arr : Option Int) (oCan dCan svcCan : Bool),
      oCan = true ∨ dCan = true →
      FetchRtt2.statusFromDelays dep arr (oCan || dCan || svcCan) = "cancelled") ∧
    (∀ ls le : Part000.CallInfo,
      ls.isCancelled = true ∨ le.isCancelled = true →
      Part004.statusFrom (some ls) (some le) = "cancelled") := by
  constructor
  · intro dep arr oCan dCan svcCan h
    rcases h with h | h <;> simp [FetchRtt2.statusFromDelays, h]
  · intro ls le h
    rcases h with h | h <;> simp [Part004.statusFrom, h]

/-- Witness for C2: a cancelled origin with a huge negative delay still
reports `"cancelled"` in both classifiers. -/
theorem c2_witness :
    FetchRtt2.statusFromDelays (some (-30)) (some 0) (true || false || false) = "cancelled" ∧
    Part004.statusFrom (some { isCancelled := true }) (some {}) = "cancelled" :=
  ⟨c2_cancel_dominates.1 (some (-30)) (some 0) true false false (Or.inl rfl),
   c2_cancel_dominates.2 { isCancelled := true } {} (Or.inl rfl)⟩

/-- C7: with no cancellation and no observed (realtime) times anywhere, both
`statusFrom` variants return `"on_time"`; moreover when observed merely
equals booked on the compared fields the result is still `"on_time"` —
booked data can never register as delayed (or early) against itself. -/
theorem c7_no_observed_on_time :
    ∀ o d : Loc, o.isCancelled = false → d.isCancelled = false →
      ((o.realtimeDeparture = none ∧ o.realtimeArrival = none ∧
        d.realtimeDeparture = none ∧ d.realtimeArrival = none) ∨
       (o.realtimeDeparture = o.gbttBookedDeparture ∧
        d.realtimeArrival = d.gbttBookedArrival)) →
      Part002.statusFrom o d = "on_time" ∧ FetchRtt.statusFrom o d = "on_time" := by
  intro o d ho hd h
  rcases h with ⟨h1, h2, h3, h4⟩ | ⟨h1, h2⟩
  · constructor
    · unfold Part002.statusFrom Part002.isLater
      rw [ho, hd, h1, h4]
      simp
    · unfold FetchRtt.statusFrom
      rw [ho, hd, h1, h4]
      cases o.gbttBookedDeparture <;> cases d.gbttBookedArrival <;> simp
  · constructor
    · unfold Part002.statusFrom Part002.isLater
      rw [ho, hd, h1, h2]
      cases o.gbttBookedDeparture <;> cases d.gbttBookedArrival <;> simp
    · unfold FetchRtt.statusFrom
      rw [ho, hd, h1, h2]
      cases o.gbttBookedDeparture <;> cases d.gbttBookedArrival <;> simp

/-- Witness for C7: booked times only, nothing observed, not cancelled. -/
theorem c7_witness :
    Part002.statusFrom { gbttBookedDeparture := some 464 } { gbttBookedArrival := some 500 }
        = "on_time" ∧
    FetchRtt.statusFrom { gbttBookedDeparture := some 464 } { gbttBookedArrival := some 500 }
        = "on_time" :=
  c7_no_observed_on_time { gbttBookedDeparture := some 464 } { gbttBookedArrival := some 500 }
    rfl rfl (Or.inl ⟨rfl, rfl, rfl, rfl⟩)

/-! ## Day selector (`part_000` / `part_001`)

The payload `fetchForDate` hands to the rollover decision: its `status`
field, and the origin/destination `callInfo` records (absent when the
service was `not_found`). -/

namespace Part000

/-- The slice of the `fetchForDate` result read by the switch decision. -/
structure Payload where
  status : String
  origin : Option CallInfo := none
  destination : Option CallInfo := none

/-- `shouldSwitch` from `part_000` lines 168-183.  `GBTT` is the configured
booked departure (default `"0744"`), `grace` is `SWITCH_GRACE_MINS`
(default 2); `fetchForDate` never returns `null`, so the JS
`!todayPayload` guard is dropped. -/
def shouldSwitch (GBTT grace nowM : Nat) (todayPayload : Payload) : Bool :=
  if todayPayload.status = "not_found" then true
  else
    let o := todayPayload.origin
    let booked := (o.bind (·.bookedDeparture)).getD GBTT
    let cancelled := (o.map (·.isCancelled)).getD false ||
      (todayPayload.destination.map (·.isCancelled)).getD false
    let thresholdM := if cancelled then booked else (o.bind (·.realtimeDeparture)).getD booked
    decide (thresholdM + grace ≤ nowM)

end Part000

namespace Part001

/-- `shouldSwitchToTomorrow` from `part_001` lines 112-128: identical to
the `part_000` rule but without the `not_found` short-circuit, which lives in
`main` there. -/
def shouldSwitchToTomorrow (GBTT grace nowM : Nat) (todayPayload : Part000.Payload) : Bool :=
  let origin := todayPayload.origin
  let booked := (origin.bind (·.bookedDeparture)).getD GBTT
  let rtDep := origin.bind (·.realtimeDeparture)
  let cancelled := (origin.map (·.isCancelled)).getD false ||
    (todayPayload.destination.map (·.isCancelled)).getD false
  let thresholdM := if cancelled then booked else rtDep.getD booked
  decide (thresholdM + grace ≤ nowM)

/-- The `switchNow` decision in the `part_001` main (lines 210-212): an empty
today search (`status === "not_found"`) switches unconditionally, otherwise
the grace/threshold rule runs. -/
def switchNow (GBTT grace nowM : Nat) (todayPayload : Part000.Payload) : Bool :=
  if todayPayload.status = "not_found" then true
  else shouldSwitchToTomorrow GBTT grace nowM todayPayload

/-- The payload selection in both mains (today fetched first, then the
switch decision picks the payload of today or of tomorrow). -/
def daySelect (GBTT grace nowM : Nat) (todayPayload tomorrowPayload : Part000.Payload) :
    Part000.Payload :=
  if switchNow GBTT grace nowM todayPayload then tomorrowPayload else todayPayload

end Part001

/-- The threshold exactly as claim C4 words it: the observed departure of today
when the service is not cancelled and an observed departure exists,
otherwise the booked departure (with the configured time as last resort). -/
def claimThreshold (GBTT : Nat) (p : Part000.Payload) : Nat :=
  let cancelled := (p.origin.map (·.isCancelled)).getD false ||
    (p.destination.map (·.isCancelled)).getD false
  match p.origin.bind (·.realtimeDeparture) with
  | some rt => if cancelled then (p.origin.bind (·.bookedDeparture)).getD GBTT else rt
  | none => (p.origin.bind (·.bookedDeparture)).getD GBTT

/-- C4: the run switches to TOMORROW exactly when the lookup for today yielded
`not_found` or the current minute-of-day has reached threshold + grace,
with the threshold as claimed; on an empty today search the switch happens
for every `now`, without consulting the grace/threshold rule; the `part_000`
and `part_001` decisions agree; and the selected payload is the one for tomorrow
precisely under that condition. -/
theorem c4_day_selector :
    ∀ (GBTT grace nowM : Nat) (p q : Part000.Payload),
      (Part000.shouldSwitch GBTT grace nowM p = true ↔
        p.status = "not_found" ∨ claimThreshold GBTT p + grace ≤ nowM) ∧
      (p.status = "not_found" → ∀ now2, Part000.shouldSwitch GBTT grace now2 p = true) ∧
      Part001.switchNow GBTT grace nowM p = Part000.shouldSwitch GBTT grace nowM p ∧
      Part001.daySelect GBTT grace nowM p q =
        (if p.status = "not_found" ∨ claimThreshold GBTT p + grace ≤ nowM then q else p) := by
  intro GBTT grace nowM p q
  have hthr : (if ((p.origin.map (·.isCancelled)).getD false ||
        (p.destination.map (·.isCancelled)).getD false) = true then
        (p.origin.bind (·.bookedDeparture)).getD GBTT
      else ((p.origin.bind (·.realtimeDeparture)).getD
        ((p.origin.bind (·.bookedDeparture)).getD GBTT))) = claimThreshold GBTT p := by
    unfold claimThreshold
    cases hrt : p.origin.bind (·.realtimeDeparture) <;>
      by_cases hc : ((p.origin.map (·.isCancelled)).getD false ||
          (p.destination.map (·.isCancelled)).getD false) = true <;>
      simp_all
  refine ⟨?_, ?_, ?_, ?_⟩
  · unfold Part000.shouldSwitch
    by_cases hs : p.status = "not_found"
    · simp [hs]
    · simp only [hs, if_false]
      rw [hthr]
      simp [hs]
  · intro hs now2
    unfold Part000.shouldSwitch
    simp [hs]
  · unfold Part001.switchNow Part001.shouldSwitchToTomorrow Part000.shouldSwitch
    by_cases hs : p.status = "not_found" <;> simp [hs]
  · unfold Part001.daySelect Part001.switchNow Part001.shouldSwitchToTomorrow
    by_cases hs : p.status = "not_found"
    · simp [hs]
    · simp only [hs, if_false]
      rw [hthr]
      by_cases hle : claimThreshold GBTT p + grace ≤ nowM <;> simp [hs, hle]

/-- Witness for C4: a payload whose service departed at 07:46 observed
(booked 07:44, not cancelled); at 07:49 with grace 2 the selector switches,
and on a `not_found` payload it switches even at midnight. -/
theorem c4_witness :
    (Part000.shouldSwitch 464 2 469
        { status := "on_time",
          origin := some { bookedDeparture := some 464, realtimeDeparture := some 466 } } = true) ∧
    (Part000.shouldSwitch 464 2 0 { status := "not_found" } = true) := by
  constructor
  · exact (c4_day_selector 464 2 469
      { status := "on_time",
        origin := some { bookedDeparture := some 464, realtimeDeparture := some 466 } }
      { status := "x" }).1.mpr (Or.inr (by decide))
  · exact (c4_day_selector 464 2 0 { status := "not_found" } { status := "x" }).2.1 rfl 0

/-! ## Remote client detail lookup with adjacent-date retry
(`part_003` lines 80-98; the same code is `part_005` lines 53-66 and, with
the extra `mk`-path formatting, `part_002` lines 122-145). -/

namespace Part003

/-- Provider errors, split as the source splits them: the string test
`String(e).includes("HTTP 404")` becomes a structural case. -/
inductive RttError where
  | http404 : RttError
  | other : String → RttError
  deriving DecidableEq

/-- A search candidate as consumed by `detailBySvc`: optional `rid`,
`serviceUid`, and optional pre-resolved `runDate` (a day number; the JS
regex check for `YYYY-MM-DD` shape is absorbed into `Option`). -/
structure Svc where
  rid : Option String := none
  serviceUid : String := ""
  runDate : Option Int := none
  locDep : Option Nat := none
  deriving DecidableEq

/-- The UID+date fallback path of `detailBySvc` (`part_003` lines 87-97): a
404 at the run date retries at date+1 and then at date−1, any other error
propagates; if all retries fail the original 404 surfaces. -/
def detailByUid {α : Type} (uidFetch : String → Int → Except RttError α)
    (uid : String) (runISO : Int) : Except RttError α :=
  match uidFetch uid runISO with
  | .ok v => .ok v
  | .error e =>
    match e with
    | .other msg => .error (.other msg)
    | .http404 =>
      match uidFetch uid (runISO + 1) with
      | .ok v => .ok v
      | .error _ =>
        match uidFetch uid (runISO - 1) with
        | .ok v => .ok v
        | .error _ => .error .http404

/-- `detailBySvc` from `part_003` lines 80-98: RID first (any failure falls
through to the dated UID path), with `runISO` the own run date of the candidate
when present, else the requested date. -/
def detailBySvc {α : Type} (ridFetch : String → Except RttError α)
    (uidFetch : String → Int → Except RttError α)
    (svc : Svc) (iso : Int) : Except RttError α :=
  match svc.rid with
  | some r =>
    match ridFetch r with
    | .ok v => .ok v
    | .error _ => detailByUid uidFetch svc.serviceUid (svc.runDate.getD iso)
  | none => detailByUid uidFetch svc.serviceUid (svc.runDate.getD iso)

end Part003

/-- Oracle for the C5 counterexample: day 10 is a 404, but both adjacent
days succeed, with different payloads. -/
def c5UidFetch : String → Int → Except Part003.RttError String := fun _ d =>
  if d = 11 then .ok "detail-plus-one"
  else if d = 9 then .ok "detail-minus-one"
  else .error .http404

/-- C5 counterexample: when the dated lookup 404s and BOTH adjacent dates
would succeed, the client returns the date+1 result, not the date−1 result —
the retry list in the code is `[+1, -1]`, so date+1 is tried first, contradicting
the claimed date−1-then-date+1 order. -/
theorem c5_counterexample :
    Part003.detailBySvc (fun _ => .error (.other "unused")) c5UidFetch
        { serviceUid := "U", runDate := some 10 } 10 = .ok "detail-plus-one" ∧
    Part003.detailBySvc (fun _ => .error (.other "unused")) c5UidFetch
        { serviceUid := "U", runDate := some 10 } 10 ≠ .ok "detail-minus-one" := by
  constructor
  · rfl
  · intro h
    have h2 : Except.ok (ε := Part003.RttError) "detail-plus-one" = .ok "detail-minus-one" := h
    simp at h2

/-- C5 (amended): a 404 on the dated detail lookup retries at date+1 first
and then at date−1 before surfacing the original failure; every other error
on that lookup propagates immediately, untouched by the retry dates. -/
theorem c5_retry_order_amended :
    ∀ (ridFetch : String → Except Part003.RttError String)
      (uidFetch : String → Int → Except Part003.RttError String)
      (svc : Part003.Svc) (iso : Int),
      svc.rid = none →
      (∀ msg, uidFetch svc.serviceUid (svc.runDate.getD iso) = .error (.other msg) →
        Part003.detailBySvc ridFetch uidFetch svc iso = .error (.other msg)) ∧
      (∀ v, uidFetch svc.serviceUid (svc.runDate.getD iso) = .error .http404 →
        uidFetch svc.serviceUid (svc.runDate.getD iso + 1) = .ok v →
        Part003.detailBySvc ridFetch uidFetch svc iso = .ok v) ∧
      (∀ v e2, uidFetch svc.serviceUid (svc.runDate.getD iso) = .error .http404 →
        uidFetch svc.serviceUid (svc.runDate.getD iso + 1) = .error e2 →
        uidFetch svc.serviceUid (svc.runDate.getD iso - 1) = .ok v →
        Part003.detailBySvc ridFetch uidFetch svc iso = .ok v) ∧
      (∀ e2 e3, uidFetch svc.serviceUid (svc.runDate.getD iso) = .error .http404 →
        uidFetch svc.serviceUid (svc.runDate.getD iso + 1) = .error e2 →
        uidFetch svc.serviceUid (svc.runDate.getD iso - 1) = .error e3 →
        Part003.detailBySvc ridFetch uidFetch svc iso = .error .http404) := by
  intro ridFetch uidFetch svc iso hrid
  refine ⟨?_, ?_, ?_, ?_⟩
  · intro msg h
    unfold Part003.detailBySvc Part003.detailByUid
    rw [hrid, h]
  · intro v h h1
    unfold Part003.detailBySvc Part003.detailByUid
    rw [hrid, h, h1]
  · intro v e2 h h1 h2
    unfold Part003.detailBySvc Part003.detailByUid
    rw [hrid, h, h1, h2]
  · intro e2 e3 h h1 h2
    unfold Part003.detailBySvc Part003.detailByUid
    rw [hrid, h, h1, h2]

/-- Witness for the amended theorem of C5: with the counterexample oracle, a 404
at day 10 and a success at day 11 produce the day-11 payload; and a plain
error surfaces unchanged. -/
theorem c5_witness :
    Part003.detailBySvc (fun _ => .error (.other "unused")) c5UidFetch
        { serviceUid := "U", runDate := some 10 } 10 = .ok "detail-plus-one" ∧
    Part003.detailBySvc (fun _ => .error (.other "unused"))
        (fun _ _ => (.error (.other "HTTP 500") : Except Part003.RttError String))
        { serviceUid := "U", runDate := some 10 } 10
        = .error (.other "HTTP 500") :=
  ⟨(c5_retry_order_amended (fun _ => .error (.other "unused")) c5UidFetch
      { serviceUid := "U", runDate := some 10 } 10 rfl).2.1 "detail-plus-one" rfl rfl,
   (c5_retry_order_amended (fun _ => .error (.other "unused"))
      (fun _ _ => (.error (.other "HTTP 500") : Except Part003.RttError String))
      { serviceUid := "U", runDate := some 10 } 10
      rfl).1 "HTTP 500" rfl⟩

/-! ## Transfer matcher of `part_004`

Window filter and sort of first-leg candidates (lines 141-145), the legs
loop with `MAX_LEGS = 3` (lines 147-202), and the connections loop with
`MAX_CONN_PER_LEG = 2`, `MIN_XFER_MIN = 1` (lines 162-191). -/

namespace Part004

/-- Maximum number of first legs kept (`part_004` line 23). -/
def MAX_LEGS : Nat := 3

/-- Maximum number of connections per leg (`part_004` line 24). -/
def MAX_CONN_PER_LEG : Nat := 2

/-- Minimum transfer minutes (`part_004` line 25). -/
def MIN_XFER_MIN : Nat := 1

/-- A search candidate as the matcher reads it: the booked departure from
`locationDetail`, the `serviceUid` and the `runDate` (day number). -/
structure SearchSvc where
  gbttBookedDeparture : Option Nat := none
  serviceUid : Option String := none
  runDate : Option Int := none
  deriving DecidableEq

/-- A service detail response: its call pattern. -/
structure Detail where
  locations : List Loc := []

/-- `call` from `part_004` line 65: find the stop call for a station. -/
def call (crs : String) (svc : Detail) : Option Loc :=
  svc.locations.find? (fun l => l.crs == crs)

/-- The window predicate of the `allSrc` pipeline (`part_004` line 144):
booked departure strictly after `start` and at or before `windowEnd`. -/
def inWindowSrc (start windowEnd : Nat) (x : SearchSvc) : Bool :=
  match x.gbttBookedDeparture with
  | some dep => decide (start < dep) && decide (dep ≤ windowEnd)
  | none => false

/-- `allSrc` from `part_004` lines 142-145: drop candidates without a booked
departure, keep the window, sort ascending by booked departure (JS
`Array.sort` is stable; so is `mergeSort`). -/
def allSrc (start windowEnd : Nat) (services : List SearchSvc) : List SearchSvc :=
  ((services.filter (fun x => x.gbttBookedDeparture.isSome)).filter
      (inWindowSrc start windowEnd)).mergeSort
    (fun a b => decide (a.gbttBookedDeparture.getD 0 ≤ b.gbttBookedDeparture.getD 0))

/-- A connection row as pushed by the conns loop (`part_004` lines
182-190). -/
structure Conn where
  status : String
  cljDep : Option Nat
  cljDepReal : Option Nat
  cljPlat : Option String
  imwArr : Option Nat
  imwArrReal : Option Nat
  imwPlat : Option String
  deriving DecidableEq

/-- The connections loop (`part_004` lines 167-191): walk the provider
candidates in order, keep at most `budget` rows, skipping candidates with
missing identifiers, missing stops, a cancelled interchange call, a missing
departure, or a departure that is not after the interchange arrival by at
least `MIN_XFER_MIN` minutes, or that is after `windowEnd`. -/
def buildConns (detailFetch : String → Int → Detail) (cljArrBooked windowEnd : Nat) :
    List SearchSvc → Nat → List Conn
  | [], _ => []
  | s2c :: rest, budget =>
    if budget = 0 then []
    else
      match s2c.serviceUid, s2c.runDate with
      | some uid2, some rd2 =>
        let ddet := detailFetch uid2 rd2
        match call "CLJ" ddet, call "IMW" ddet with
        | some c, some d =>
          if c.isCancelled then buildConns detailFetch cljArrBooked windowEnd rest budget
          else
            let ci := Part000.callInfoL c
            let di := Part000.callInfoL d
            match ci.bookedDeparture.orElse (fun _ => ci.bookedArrival) with
            | none => buildConns detailFetch cljArrBooked windowEnd rest budget
            | some depCLJ =>
              if depCLJ ≤ cljArrBooked then
                buildConns detailFetch cljArrBooked windowEnd rest budget
              else if (depCLJ : Int) - (cljArrBooked : Int) < (MIN_XFER_MIN : Int) then
                buildConns detailFetch cljArrBooked windowEnd rest budget
              else if windowEnd < depCLJ then
                buildConns detailFetch cljArrBooked windowEnd rest budget
              else
                { status := statusFrom (some ci) (some di),
                  cljDep := ci.bookedDeparture,
                  cljDepReal := ci.realtimeDeparture,
                  cljPlat := ci.platform,
                  imwArr := di.bookedArrival,
                  imwArrReal := di.realtimeArrival,
                  imwPlat := di.platform } ::
                  buildConns detailFetch cljArrBooked windowEnd rest (budget - 1)
        | _, _ => buildConns detailFetch cljArrBooked windowEnd rest budget
      | _, _ => buildConns detailFetch cljArrBooked windowEnd rest budget

/-- A first-leg row as pushed by the legs loop (`part_004` lines
193-201). -/
structure Leg where
  srcDep : Option Nat
  srcDepReal : Option Nat
  srcPlat : Option String
  cljArr : Option Nat
  cljArrReal : Option Nat
  cljPlatArr : Option String
  connections : List Conn
  deriving DecidableEq

/-- The legs loop (`part_004` lines 147-202): walk the sorted candidates,
keep at most `budget` legs, skipping candidates with missing identifiers,
missing stops, a cancelled origin call or no interchange arrival; each kept
leg gets its connections from a fresh interchange search anchored at the
booked interchange arrival. -/
def buildLegs (detailFetch : String → Int → Detail)
    (connSearch : Nat → List SearchSvc) (windowEnd : Nat) :
    List SearchSvc → Nat → List Leg
  | [], _ => []
  | svc :: rest, budget =>
    if budget = 0 then []
    else
      match svc.serviceUid, svc.runDate with
      | some uid, some rd =>
        let det := detailFetch uid rd
        match call "SRC" det, call "CLJ" det with
        | some o, some h =>
          if o.isCancelled then buildLegs detailFetch connSearch windowEnd rest budget
          else
            let oi := Part000.callInfoL o
            let hi := Part000.callInfoL h
            match hi.bookedArrival.orElse (fun _ => hi.bookedDeparture) with
            | none => buildLegs detailFetch connSearch windowEnd rest budget
            | some cljArrBooked =>
              { srcDep := oi.bookedDeparture,
                srcDepReal := oi.realtimeDeparture,
                srcPlat := oi.platform,
                cljArr := hi.bookedArrival.orElse (fun _ => hi.bookedDeparture),
                cljArrReal := hi.realtimeArrival.orElse (fun _ => hi.realtimeDeparture),
                cljPlatArr := hi.platform,
                connections :=
                  buildConns detailFetch cljArrBooked windowEnd
                    (connSearch cljArrBooked) MAX_CONN_PER_LEG } ::
                buildLegs detailFetch connSearch windowEnd rest (budget - 1)
        | _, _ => buildLegs detailFetch connSearch windowEnd rest budget
      | _, _ => buildLegs detailFetch connSearch windowEnd rest budget

end Part004


theorem buildConns_sound (f : String → Int → Part004.Detail) (arrB we : Nat) :
    ∀ (cand : List Part004.SearchSvc) (budget : Nat),
      (Part004.buildConns f arrB we cand budget).length ≤ budget ∧
      ∀ conn ∈ Part004.buildConns f arrB we cand budget, ∀ dep,
        conn.cljDep = some dep → arrB + Part004.MIN_XFER_MIN ≤ dep ∧ dep ≤ we := by
  intro cand
  induction cand with
  | nil =>
    intro budget
    constructor
    · simp [Part004.buildConns]
    · simp [Part004.buildConns]
  | cons s rest ih =>
    intro budget
    rw [Part004.buildConns]
    by_cases hb : budget = 0
    · simp [hb]
    · simp only [hb, if_false]
      cases hsu : s.serviceUid with
      | none => exact ih budget
      | some uid2 =>
        cases hrd : s.runDate with
        | none => exact ih budget
        | some rd2 =>
          dsimp only
          cases hc : Part004.call "CLJ" (f uid2 rd2) with
          | none =>
            cases hd : Part004.call "IMW" (f uid2 rd2) <;> exact ih budget
          | some c =>
            cases hd : Part004.call "IMW" (f uid2 rd2) with
            | none => exact ih budget
            | some d =>
              dsimp only
              by_cases hcan : c.isCancelled = true
              · simp only [hcan, if_true]
                exact ih budget
              · rw [show c.isCancelled = false from by simpa using hcan]
                simp only [Bool.false_eq_true, if_false]
                cases hdep : ((Part000.callInfoL c).bookedDeparture.orElse
                    (fun _ => (Part000.callInfoL c).bookedArrival)) with
                | none => exact ih budget
                | some depCLJ =>
                  by_cases h1 : depCLJ ≤ arrB
                  · simp only [h1, if_true]
                    exact ih budget
                  · simp only [h1, if_false]
                    by_cases h2 : (depCLJ : Int) - (arrB : Int) < (Part004.MIN_XFER_MIN : Int)
                    · simp only [h2, if_true]
                      exact ih budget
                    · simp only [h2, if_false]
                      by_cases h3 : we < depCLJ
                      · simp only [h3, if_true]
                        exact ih budget
                      · simp only [h3, if_false]
                        obtain ⟨ihlen, ihmem⟩ := ih (budget - 1)
                        constructor
                        · simp only [List.length_cons]
                          omega
                        · intro conn hconn dep hdep2
                          rcases List.mem_cons.mp hconn with hhd | htl
                          · subst hhd
                            simp only at hdep2
                            have hbd : (Part000.callInfoL c).bookedDeparture = some dep := hdep2
                            have : depCLJ = dep := by
                              rw [hbd] at hdep
                              have := (by simpa [Option.orElse] using hdep : dep = depCLJ)
                              omega
                            subst this
                            unfold Part004.MIN_XFER_MIN at h2 ⊢
                            omega
                          · exact ihmem conn htl dep hdep2


theorem buildLegs_sound (f : String → Int → Part004.Detail)
    (g : Nat → List Part004.SearchSvc) (we : Nat) :
    ∀ (svcs : List Part004.SearchSvc) (budget : Nat),
      (Part004.buildLegs f g we svcs budget).length ≤ budget ∧
      ∀ leg ∈ Part004.buildLegs f g we svcs budget,
        leg.connections.length ≤ Part004.MAX_CONN_PER_LEG ∧
        ∀ conn ∈ leg.connections, ∀ dep, conn.cljDep = some dep →
          ∃ arrB, leg.cljArr = some arrB ∧
            arrB + Part004.MIN_XFER_MIN ≤ dep ∧ dep ≤ we := by
  intro svcs
  induction svcs with
  | nil =>
    intro budget
    constructor
    · simp [Part004.buildLegs]
    · simp [Part004.buildLegs]
  | cons s rest ih =>
    intro budget
    rw [Part004.buildLegs]
    by_cases hb : budget = 0
    · simp [hb]
    · simp only [hb, if_false]
      cases hsu : s.serviceUid with
      | none => exact ih budget
      | some uid =>
        cases hrd : s.runDate with
        | none => exact ih budget
        | some rd =>
          dsimp only
          cases ho : Part004.call "SRC" (f uid rd) with
          | none => cases hh : Part004.call "CLJ" (f uid rd) <;> exact ih budget
          | some o =>
            cases hh : Part004.call "CLJ" (f uid rd) with
            | none => exact ih budget
            | some h =>
              dsimp only
              by_cases hcan : o.isCancelled = true
              · simp only [hcan, if_true]
                exact ih budget
              · rw [show o.isCancelled = false from by simpa using hcan]
                simp only [Bool.false_eq_true, if_false]
                cases harr : ((Part000.callInfoL h).bookedArrival.orElse
                    (fun _ => (Part000.callInfoL h).bookedDeparture)) with
                | none => exact ih budget
                | some cljArrBooked =>
                  obtain ⟨ihlen, ihmem⟩ := ih (budget - 1)
                  constructor
                  · simp only [List.length_cons]
                    omega
                  · intro leg hleg
                    rcases List.mem_cons.mp hleg with hhd | htl
                    · subst hhd
                      have hcs := buildConns_sound f cljArrBooked we (g cljArrBooked)
                        Part004.MAX_CONN_PER_LEG
                      constructor
                      · exact hcs.1
                      · intro conn hconn dep hdep
                        exact ⟨cljArrBooked, rfl, hcs.2 conn hconn dep hdep⟩
                    · exact ihmem leg htl

theorem allSrc_mem (start we : Nat) (services : List Part004.SearchSvc)
    (x : Part004.SearchSvc) :
    x ∈ Part004.allSrc start we services ↔
      x ∈ services ∧ ∃ dep, x.gbttBookedDeparture = some dep ∧ start < dep ∧ dep ≤ we := by
  unfold Part004.allSrc
  rw [(List.mergeSort_perm _ _).mem_iff, List.mem_filter, List.mem_filter]
  unfold Part004.inWindowSrc
  cases hg : x.gbttBookedDeparture with
  | none => simp
  | some dep => simp [hg]

theorem allSrc_sorted (start we : Nat) (services : List Part004.SearchSvc) :
    (Part004.allSrc start we services).Pairwise
      (fun a b => a.gbttBookedDeparture.getD 0 ≤ b.gbttBookedDeparture.getD 0) := by
  unfold Part004.allSrc
  have hs := @List.sorted_mergeSort Part004.SearchSvc
    (fun a b =>
      decide (a.gbttBookedDeparture.getD 0 ≤ b.gbttBookedDeparture.getD 0))
    (by intro a b c h1 h2; simp_all; omega)
    (by intro a b; simp [Nat.le_total])
    ((services.filter (fun x => x.gbttBookedDeparture.isSome)).filter
      (Part004.inWindowSrc start we))
  exact hs.imp (by intro a b h; simpa using h)


/-- Provider response for the C6 counterexample: candidate `A` departs the
interchange at minute 510 (08:30), candidate `B` at minute 500 (08:20);
both are feasible connections for an arrival at 490 (08:10). -/
def c6DetailFetch : String → Int → Part004.Detail := fun uid _ =>
  if uid = "A" then
    { locations := [{ crs := "CLJ", gbttBookedDeparture := some 510 },
                    { crs := "IMW", gbttBookedArrival := some 520 }] }
  else
    { locations := [{ crs := "CLJ", gbttBookedDeparture := some 500 },
                    { crs := "IMW", gbttBookedArrival := some 512 }] }

def c6Cand : List Part004.SearchSvc :=
  [{ serviceUid := some "A", runDate := some 0 },
   { serviceUid := some "B", runDate := some 0 }]

/-- C6 counterexample: with the provider returning the 08:30 connection
before the 08:20 one, the connections loop keeps them in provider order —
`[0830, 0820]` — so the accepted connections are NOT in ascending departure
order, contradicting that part of the claim. -/
theorem c6_counterexample :
    (Part004.buildConns c6DetailFetch 490 525 c6Cand Part004.MAX_CONN_PER_LEG).map (·.cljDep)
        = [some 510, some 500] ∧
    ¬ (Part004.buildConns c6DetailFetch 490 525 c6Cand Part004.MAX_CONN_PER_LEG).Pairwise
        (fun a b => a.cljDep.getD 0 ≤ b.cljDep.getD 0) := by
  constructor
  · rfl
  · decide

/-- C6 (amended): the matcher retains exactly the candidates whose booked
departure lies strictly after `start` and at or before `windowEnd`, sorts
them ascending by booked departure, keeps at most `K = 3` legs, and
attaches to each at most `M = 2` feasible second-leg connections — each
departing at least `MIN_XFER_MIN = 1` minute after the interchange arrival
and not after `windowEnd` — in provider candidate order (not re-sorted). -/
theorem c6_matcher_amended :
    ∀ (start we : Nat) (services : List Part004.SearchSvc)
      (f : String → Int → Part004.Detail) (g : Nat → List Part004.SearchSvc),
      (∀ x, x ∈ Part004.allSrc start we services ↔
        x ∈ services ∧ ∃ dep, x.gbttBookedDeparture = some dep ∧ start < dep ∧ dep ≤ we) ∧
      (Part004.allSrc start we services).Pairwise
        (fun a b => a.gbttBookedDeparture.getD 0 ≤ b.gbttBookedDeparture.getD 0) ∧
      (Part004.buildLegs f g we (Part004.allSrc start we services) Part004.MAX_LEGS).length
          ≤ Part004.MAX_LEGS ∧
      ∀ leg ∈ Part004.buildLegs f g we (Part004.allSrc start we services) Part004.MAX_LEGS,
        leg.connections.length ≤ Part004.MAX_CONN_PER_LEG ∧
        ∀ conn ∈ leg.connections, ∀ dep, conn.cljDep = some dep →
          ∃ arrB, leg.cljArr = some arrB ∧ arrB + Part004.MIN_XFER_MIN ≤ dep ∧ dep ≤ we :=
  fun start we services f g =>
    ⟨allSrc_mem start we services, allSrc_sorted start we services,
     (buildLegs_sound f g we _ _).1, (buildLegs_sound f g we _ _).2⟩

/-- Witness for the amended C6 theorem: a concrete in-window candidate is
retained. -/
theorem c6_witness :
    ({ gbttBookedDeparture := some 500, serviceUid := some "B", runDate := some 0 }
        : Part004.SearchSvc) ∈ Part004.allSrc 490 525
      [{ gbttBookedDeparture := some 500, serviceUid := some "B", runDate := some 0 }] :=
  ((c6_matcher_amended 490 525
      [{ gbttBookedDeparture := some 500, serviceUid := some "B", runDate := some 0 }]
      (fun _ _ => { locations := [] }) (fun _ => [])).1 _).mpr
    ⟨by decide, 500, rfl, by decide, by decide⟩

/-! ## Transfer pairing of `xfer_plan.js` (second variant)

`locTimes` (lines 307-329) bakes realtime into the displayed times with
booked as fallback; the pairing loop (lines 439-467) accepts a (first leg,
second leg) pair exactly when the wait lies in `[MIN_XFER_MINS,
MAX_XFER_MINS]`. -/

namespace XferPlan2

/-- A search-response location as `locTimes` reads it. -/
structure Loc2 where
  crs : String := ""
  realtimeDeparture : Option Nat := none
  realtimeGBTTDeparture : Option Nat := none
  gbttBookedDeparture : Option Nat := none
  realtimeArrival : Option Nat := none
  realtimeGBTTArrival : Option Nat := none
  gbttBookedArrival : Option Nat := none
  departureDelay : Option Int := none
  departureDelayMins : Option Int := none
  arrivalDelay : Option Int := none
  arrivalDelayMins : Option Int := none
  platform : Option String := none
  isCancelled : Bool := false

/-- The departure component of `locTimes` (lines 311-312): realtime first,
then the realtime GBTT estimate, then booked. -/
def locTimesDep (loc : Loc2) : Option Nat :=
  loc.realtimeDeparture.orElse fun _ =>
    loc.realtimeGBTTDeparture.orElse fun _ => loc.gbttBookedDeparture

/-- The arrival component of `locTimes` (lines 313-314). -/
def locTimesArr (loc : Loc2) : Option Nat :=
  loc.realtimeArrival.orElse fun _ =>
    loc.realtimeGBTTArrival.orElse fun _ => loc.gbttBookedArrival

/-- The departure-delay component of `locTimes` (lines 315-320). -/
def locTimesDepDelay (loc : Loc2) : Int :=
  (loc.departureDelay.orElse fun _ => loc.departureDelayMins).getD 0

/-- The arrival-delay component of `locTimes` (lines 321-326). -/
def locTimesArrDelay (loc : Loc2) : Int :=
  (loc.arrivalDelay.orElse fun _ => loc.arrivalDelayMins).getD 0

/-- `statusFromDelays` from `xfer_plan.js` v2 lines 331-335. -/
def statusFromDelays (depDelay arrDelay : Option Int) (cancelled : Bool) : String :=
  if cancelled then "cancelled"
  else if 0 < depDelay.getD 0 ∨ 0 < arrDelay.getD 0 then "delayed"
  else "on_time"

/-- A normalised leg row as pushed into `out.legs.src_clj` /
`out.legs.clj_imw` (lines 393-404 and 424-435). -/
structure LegRow where
  serviceUid : String := ""
  dep : Option Nat := none
  arr : Option Nat := none
  depDelayMins : Int := 0
  arrDelayMins : Int := 0
  platformFrom : String := ""
  platformTo : String := ""
  status : String := ""
  deriving DecidableEq

/-- Construction of one leg row from the from/to stop calls (lines
377-404): times come from `locTimes`, i.e. observed with booked as
fallback. -/
def mkLegRow (uid : String) (fromLoc toLoc : Loc2) (svcCancelled : Bool) : LegRow :=
  { serviceUid := uid
    dep := locTimesDep fromLoc
    arr := locTimesArr toLoc
    depDelayMins := locTimesDepDelay fromLoc
    arrDelayMins := locTimesArrDelay toLoc
    platformFrom := fromLoc.platform.getD ""
    platformTo := toLoc.platform.getD ""
    status := statusFromDelays (some (locTimesDepDelay fromLoc))
      (some (locTimesArrDelay toLoc))
      (fromLoc.isCancelled || toLoc.isCancelled || svcCancelled) }

/-- A transfer option as pushed by the pairing loop (lines 452-465). -/
structure XferRow where
  srcDep : Option Nat
  srcPlat : String
  cljArr : Option Nat
  cljPlatArr : String
  transferMins : Int
  cljDep : Option Nat
  cljDepUsed : Option Nat
  cljPlatDep : String
  imwArr : Option Nat
  imwArrUsed : Option Nat
  imwPlat : String
  status : String
  deriving DecidableEq

/-- The pairing loop (lines 439-467): every first leg with an arrival is
paired with every second leg with a departure whose wait
`bDep − aArr` lies within `[minX, maxX]`; the nested `push` loops are the
`flatMap`/`filterMap` of the row lists. -/
def pairTransfers (minX maxX : Int) (srcLegs cljLegs : List LegRow) : List XferRow :=
  srcLegs.flatMap fun a =>
    match a.arr with
    | none => []
    | some aArr =>
      cljLegs.filterMap fun b =>
        match b.dep with
        | none => none
        | some bDep =>
          let wait : Int := (bDep : Int) - (aArr : Int)
          if wait < minX ∨ wait > maxX then none
          else some
            { srcDep := a.dep, srcPlat := a.platformFrom, cljArr := a.arr,
              cljPlatArr := a.platformTo, transferMins := wait,
              cljDep := b.dep, cljDepUsed := b.dep, cljPlatDep := b.platformFrom,
              imwArr := b.arr, imwArrUsed := b.arr, imwPlat := b.platformTo,
              status := if a.status = "delayed" ∨ b.status = "delayed" then "delayed"
                        else "on_time" }

end XferPlan2

namespace XferPlan1

/-- The connection acceptance check of `xfer_plan.js` v1 lines 160-162
(also `part_003` line 182, `part_005` line 135): a candidate is kept only
when its observed-or-booked departure is at least one minute after the
interchange arrival (`if (depMin < arrMin + 1) continue`). -/
def connDepAccepted (arrMin depMin : Nat) : Bool := !(decide (depMin < arrMin + 1))

end XferPlan1

/-- C3: every transfer option the pairing accepts has
`minConnection ≤ wait ≤ maxConnection` where the wait is the second-leg
observed-or-booked departure minus the first-leg observed-or-booked arrival
(booked as fallback, via `locTimes`), hence `wait ≥ 0` whenever
`minConnection ≥ 0`; and, in the single-connection filter, with interchange
arrival 08:10 (minute 490) and `minConnection = 1`, a candidate departing
08:10 is rejected while one departing 08:11 is accepted. -/
theorem c3_transfer_wait_bounds :
    (∀ (minX maxX : Int) (srcLegs cljLegs : List XferPlan2.LegRow)
        (t : XferPlan2.XferRow), t ∈ XferPlan2.pairTransfers minX maxX srcLegs cljLegs →
      minX ≤ t.transferMins ∧ t.transferMins ≤ maxX ∧ (0 ≤ minX → 0 ≤ t.transferMins) ∧
      ∃ a ∈ srcLegs, ∃ b ∈ cljLegs, ∃ aArr bDep,
        a.arr = some aArr ∧ b.dep = some bDep ∧
        t.transferMins = (bDep : Int) - (aArr : Int)) ∧
    (∀ (uid : String) (fromLoc toLoc : XferPlan2.Loc2) (svcCan : Bool),
      (XferPlan2.mkLegRow uid fromLoc toLoc svcCan).dep = XferPlan2.locTimesDep fromLoc ∧
      (XferPlan2.mkLegRow uid fromLoc toLoc svcCan).arr = XferPlan2.locTimesArr toLoc ∧
      (fromLoc.realtimeDeparture = none → fromLoc.realtimeGBTTDeparture = none →
        (XferPlan2.mkLegRow uid fromLoc toLoc svcCan).dep = fromLoc.gbttBookedDeparture)) ∧
    (XferPlan1.connDepAccepted 490 490 = false ∧ XferPlan1.connDepAccepted 490 491 = true) := by
  refine ⟨?_, ?_, by decide, by decide⟩
  · intro minX maxX srcLegs cljLegs t ht
    unfold XferPlan2.pairTransfers at ht
    rw [List.mem_flatMap] at ht
    obtain ⟨a, ha, hta⟩ := ht
    cases harr : a.arr with
    | none => rw [harr] at hta; simp at hta
    | some aArr =>
      rw [harr] at hta
      rw [List.mem_filterMap] at hta
      obtain ⟨b, hb, htb⟩ := hta
      cases hdep : b.dep with
      | none => rw [hdep] at htb; simp at htb
      | some bDep =>
        rw [hdep] at htb
        simp only at htb
        by_cases hw : ((bDep : Int) - (aArr : Int) < minX ∨
            (bDep : Int) - (aArr : Int) > maxX)
        · rw [if_pos hw] at htb; simp at htb
        · rw [if_neg hw] at htb
          have ht := (Option.some.injEq _ _).mp htb
          push_neg at hw
          have htm : t.transferMins = (bDep : Int) - (aArr : Int) := by
            rw [← ht]
          refine ⟨by omega, by omega, by omega,
            a, ha, b, hb, aArr, bDep, harr, hdep, htm⟩
  · intro uid fromLoc toLoc svcCan
    exact ⟨rfl, rfl, fun h1 h2 => by
      simp [XferPlan2.mkLegRow, XferPlan2.locTimesDep, h1, h2]⟩

/-- First-leg row for the C3 witness: arrives at the interchange at minute
490 (08:10). -/
def c3SrcRow : XferPlan2.LegRow := { dep := some 480, arr := some 490 }

/-- Second-leg row for the C3 witness: departs the interchange at minute
491 (08:11). -/
def c3CljRow : XferPlan2.LegRow := { dep := some 491, arr := some 500 }

/-- The transfer option the pairing produces for the witness rows. -/
def c3Row : XferPlan2.XferRow :=
  { srcDep := some 480, srcPlat := "", cljArr := some 490, cljPlatArr := "",
    transferMins := 1, cljDep := some 491, cljDepUsed := some 491, cljPlatDep := "",
    imwArr := some 500, imwArrUsed := some 500, imwPlat := "", status := "on_time" }

/-- Witness for C3: with `minConnection = 1`, `maxConnection = 20`, the
08:11 connection is accepted with wait 1, and the 08:10 connection is
rejected entirely. -/
theorem c3_witness :
    ((1 : Int) ≤ c3Row.transferMins ∧ c3Row.transferMins ≤ 20) ∧
    XferPlan2.pairTransfers 1 20 [c3SrcRow] [{ dep := some 490 }] = [] :=
  ⟨⟨(c3_transfer_wait_bounds.1 1 20 [c3SrcRow] [c3CljRow] c3Row (by decide)).1,
    (c3_transfer_wait_bounds.1 1 20 [c3SrcRow] [c3CljRow] c3Row (by decide)).2.1⟩,
   by decide⟩

/-! ## Transfer matcher main of `part_003`

The direct block (lines 123-142), the window filter (lines 147-150), the
legs loop with skip-on-failure (lines 153-207) and the connections loop
(lines 170-194).  `statusFrom` there is the `FetchRtt.statusFrom` variant. -/

namespace Part003

/-- A connection row (`part_003` lines 184-192). -/
structure Conn3 where
  status : String
  cljDep : Option Nat
  cljDepReal : Option Nat
  cljPlat : Option String
  imwArr : Option Nat
  imwArrReal : Option Nat
  imwPlat : Option String
  deriving DecidableEq

/-- A first-leg row (`part_003` lines 196-204). -/
structure Leg3 where
  srcDep : Option Nat
  srcDepReal : Option Nat
  srcPlat : Option String
  cljArr : Option Nat
  cljArrReal : Option Nat
  cljPlatArr : Option String
  connections : List Conn3
  deriving DecidableEq

/-- A detail response: its call pattern. -/
structure Detail3 where
  locations : List Loc := []

/-- `findStop` from `part_003` line 78: the stop call for a station,
defaulting to an empty record (`|| {}`). -/
def findStop (detail : Detail3) (crs : String) : Loc :=
  (detail.locations.find? (fun l => l.crs == crs)).getD {}

/-- The connections loop (`part_003` lines 172-193): at most `budget` rows;
a candidate without `serviceUid`, with a failing detail lookup, with
missing stops, or departing less than one minute after the interchange
arrival is skipped. -/
def buildConns3 (detailOf : Svc → Except RttError Detail3) (arrMin : Nat) :
    List Svc → Nat → List Conn3
  | [], _ => []
  | c :: rest, budget =>
    if budget = 0 then []
    else if c.serviceUid = "" then buildConns3 detailOf arrMin rest budget
    else
      match detailOf c with
      | .error _ => buildConns3 detailOf arrMin rest budget
      | .ok cd =>
        let cjs := findStop cd "CLJ"
        let imw := findStop cd "IMW"
        match cjs.gbttBookedDeparture, imw.gbttBookedArrival with
        | some _, some _ =>
          let depMin := (cjs.realtimeDeparture.orElse fun _ => cjs.gbttBookedDeparture).getD 0
          if depMin < arrMin + 1 then buildConns3 detailOf arrMin rest budget
          else
            { status := FetchRtt.statusFrom cjs imw,
              cljDep := cjs.gbttBookedDeparture, cljDepReal := cjs.realtimeDeparture,
              cljPlat := cjs.platform, imwArr := imw.gbttBookedArrival,
              imwArrReal := imw.realtimeArrival, imwPlat := imw.platform } ::
              buildConns3 detailOf arrMin rest (budget - 1)
        | _, _ => buildConns3 detailOf arrMin rest budget

/-- The legs loop (`part_003` lines 153-207): a failing detail lookup skips
only that candidate (`catch → continue`); a failing connection search
leaves that leg with no connections but still emits it; the loop stops once
`legsLeft` legs have been pushed (`if (legs.length >= 3) break`). -/
def buildLegs3 (detailOf : Svc → Except RttError Detail3)
    (connSearch : Nat → Except RttError (List Svc)) :
    List Svc → Nat → List Leg3
  | [], _ => []
  | svc :: rest, legsLeft =>
    if svc.serviceUid = "" then buildLegs3 detailOf connSearch rest legsLeft
    else
      match detailOf svc with
      | .error _ => buildLegs3 detailOf connSearch rest legsLeft
      | .ok det =>
        let o := findStop det "SRC"
        let cj := findStop det "CLJ"
        match o.gbttBookedDeparture, cj.gbttBookedArrival with
        | some _, some _ =>
          let arrMin := (cj.realtimeArrival.orElse fun _ => cj.gbttBookedArrival).getD 0
          let conns :=
            match connSearch (arrMin + 1) with
            | .error _ => []
            | .ok cand => buildConns3 detailOf arrMin cand 2
          { srcDep := o.gbttBookedDeparture, srcDepReal := o.realtimeDeparture,
            srcPlat := o.platform, cljArr := cj.gbttBookedArrival,
            cljArrReal := cj.realtimeArrival, cljPlatArr := cj.platform,
            connections := conns } ::
            (if legsLeft - 1 = 0 then [] else buildLegs3 detailOf connSearch rest (legsLeft - 1))
        | _, _ => buildLegs3 detailOf connSearch rest legsLeft

/-- The direct tile (`part_003` lines 123-142): any error in the search or
the detail lookup is caught and leaves `out.direct = null`. -/
structure Direct3 where
  status : String
  srcDep : Option Nat
  srcDepReal : Option Nat
  srcPlat : Option String
  imwArr : Option Nat
  imwArrReal : Option Nat
  imwPlat : Option String
  deriving DecidableEq

/-- Computation of `out.direct` (`part_003` lines 123-142). -/
def direct3 (searchDirect : Except RttError (List Svc))
    (detailOf : Svc → Except RttError Detail3) (windowStart : Nat) : Option Direct3 :=
  match searchDirect with
  | .error _ => none
  | .ok svcs =>
    match (svcs.find? (fun s => s.locDep == some windowStart)).orElse (fun _ => svcs.head?) with
    | none => none
    | some svc =>
      match detailOf svc with
      | .error _ => none
      | .ok det =>
        let o := findStop det "SRC"
        let iw := findStop det "IMW"
        some { status := FetchRtt.statusFrom o iw,
               srcDep := o.gbttBookedDeparture, srcDepReal := o.realtimeDeparture,
               srcPlat := o.platform, imwArr := iw.gbttBookedArrival,
               imwArrReal := iw.realtimeArrival, imwPlat := iw.platform }

/-- The window filter over first-leg candidates (`part_003` lines
147-150). -/
def legsWindowFilter (ws we : Nat) (all : List Svc) : List Svc :=
  all.filter (fun s =>
    match s.locDep with
    | some dep => decide (ws < dep) && decide (dep ≤ we)
    | none => false)

/-- The assembled `out` record (`part_003` lines 114-214): a failed legs
search leaves `legs = []`, a failed direct search or detail leaves
`direct = null`; the run always produces a record. -/
structure Out3 where
  generatedAt : String
  windowStart : Nat
  windowEnd : Nat
  direct : Option Direct3
  legs : List Leg3
  deriving DecidableEq

/-- The `part_003` main body as a pure function of the timestamp, the
window, and the lookup oracles. -/
def main3 (ts : String) (ws we : Nat)
    (searchDirect searchLegs : Except RttError (List Svc))
    (detailOf : Svc → Except RttError Detail3)
    (connSearch : Nat → Except RttError (List Svc)) : Out3 :=
  { generatedAt := ts, windowStart := ws, windowEnd := we,
    direct := direct3 searchDirect detailOf ws,
    legs :=
      match searchLegs with
      | .error _ => []
      | .ok all => buildLegs3 detailOf connSearch (legsWindowFilter ws we all) 3 }

end Part003


/-- A candidate whose detail lookup fails is skipped exactly as if it were
absent from the list: the rest of the run is unchanged. -/
theorem buildLegs3_skip (detailOf : Part003.Svc → Except Part003.RttError Part003.Detail3)
    (connSearch : Nat → Except Part003.RttError (List Part003.Svc))
    (bad : Part003.Svc) (e : Part003.RttError) (hbad : detailOf bad = .error e) :
    ∀ (xs ys : List Part003.Svc) (budget : Nat),
      Part003.buildLegs3 detailOf connSearch (xs ++ bad :: ys) budget =
        Part003.buildLegs3 detailOf connSearch (xs ++ ys) budget := by
  intro xs
  induction xs with
  | nil =>
    intro ys budget
    rw [List.nil_append, List.nil_append, Part003.buildLegs3]
    by_cases hu : bad.serviceUid = ""
    · simp only [hu, if_true]
    · simp only [hu, if_false, hbad]
  | cons x xs ih =>
    intro ys budget
    rw [List.cons_append, List.cons_append, Part003.buildLegs3, Part003.buildLegs3]
    by_cases hu : x.serviceUid = ""
    · simp only [hu, if_true]
      exact ih ys budget
    · simp only [hu, if_false]
      cases hdet : detailOf x with
      | error e2 => exact ih ys budget
      | ok det =>
        dsimp only
        cases hdb : (Part003.findStop det "SRC").gbttBookedDeparture with
        | none =>
          cases hab : (Part003.findStop det "CLJ").gbttBookedArrival <;> exact ih ys budget
        | some db =>
          cases hab : (Part003.findStop det "CLJ").gbttBookedArrival with
          | none => exact ih ys budget
          | some ab =>
            dsimp only
            rw [ih ys (budget - 1)]


/-- C8: in the `part_003` transfer run, a failed direct search leaves
`direct = null` and does not touch the legs; a failed first-leg detail
lookup removes exactly that candidate from the outcome; a failed connection
search leaves that leg in the output with an empty connection list.  The
embedded `main3` is a total function, so the run always produces an `Out3`
record. -/
theorem c8_local_failure_isolation :
    (∀ (ts : String) (ws we : Nat) (e : Part003.RttError)
        (sd sl : Except Part003.RttError (List Part003.Svc))
        (detailOf : Part003.Svc → Except Part003.RttError Part003.Detail3)
        (connSearch : Nat → Except Part003.RttError (List Part003.Svc)),
      (Part003.main3 ts ws we (.error e) sl detailOf connSearch).direct = none ∧
      (Part003.main3 ts ws we (.error e) sl detailOf connSearch).legs =
        (Part003.main3 ts ws we sd sl detailOf connSearch).legs) ∧
    (∀ (detailOf : Part003.Svc → Except Part003.RttError Part003.Detail3)
        (connSearch : Nat → Except Part003.RttError (List Part003.Svc))
        (xs ys : List Part003.Svc) (bad : Part003.Svc) (e : Part003.RttError)
        (budget : Nat),
      detailOf bad = .error e →
      Part003.buildLegs3 detailOf connSearch (xs ++ bad :: ys) budget =
        Part003.buildLegs3 detailOf connSearch (xs ++ ys) budget) ∧
    (∀ (detailOf : Part003.Svc → Except Part003.RttError Part003.Detail3)
        (connSearch : Nat → Except Part003.RttError (List Part003.Svc))
        (svc : Part003.Svc) (rest : List Part003.Svc) (budget : Nat)
        (det : Part003.Detail3) (e : Part003.RttError) (db ab : Nat),
      svc.serviceUid ≠ "" →
      detailOf svc = .ok det →
      (Part003.findStop det "SRC").gbttBookedDeparture = some db →
      (Part003.findStop det "CLJ").gbttBookedArrival = some ab →
      connSearch (((Part003.findStop det "CLJ").realtimeArrival.orElse
          (fun _ => some ab)).getD 0 + 1) = .error e →
      ∃ tail, Part003.buildLegs3 detailOf connSearch (svc :: rest) budget =
        { srcDep := some db,
          srcDepReal := (Part003.findStop det "SRC").realtimeDeparture,
          srcPlat := (Part003.findStop det "SRC").platform,
          cljArr := some ab,
          cljArrReal := (Part003.findStop det "CLJ").realtimeArrival,
          cljPlatArr := (Part003.findStop det "CLJ").platform,
          connections := [] } :: tail) := by
  refine ⟨?_, ?_, ?_⟩
  · intro ts ws we e sd sl detailOf connSearch
    exact ⟨rfl, rfl⟩
  · intro detailOf connSearch xs ys bad e budget hbad
    exact buildLegs3_skip detailOf connSearch bad e hbad xs ys budget
  · intro detailOf connSearch svc rest budget det e db ab hu hdet hdb hab hcs
    rw [Part003.buildLegs3]
    simp only [hu, if_false]
    rw [hdet]
    dsimp only
    rw [hdb, hab]
    dsimp only
    rw [hcs]
    exact ⟨_, rfl⟩

/-- A candidate whose detail lookup fails, for the C8 witness. -/
def c8Bad : Part003.Svc := { serviceUid := "BAD" }

/-- A candidate whose detail lookup succeeds, for the C8 witness. -/
def c8Good : Part003.Svc := { serviceUid := "GOOD" }

/-- Detail oracle for the C8 witness: fails on `c8Bad` only. -/
def c8DetailOf : Part003.Svc → Except Part003.RttError Part003.Detail3 := fun s =>
  if s.serviceUid = "BAD" then .error .http404
  else .ok { locations := [{ crs := "SRC", gbttBookedDeparture := some 470 },
                           { crs := "CLJ", gbttBookedArrival := some 490 }] }

/-- Witness for C8: dropping the failing candidate from the input list
leaves the run unchanged. -/
theorem c8_witness :
    Part003.buildLegs3 c8DetailOf (fun _ => .ok []) [c8Bad, c8Good] 3 =
      Part003.buildLegs3 c8DetailOf (fun _ => .ok []) [c8Good] 3 :=
  c8_local_failure_isolation.2.1 c8DetailOf (fun _ => .ok []) [] [c8Good] c8Bad .http404 3 rfl


/-! ## The `part_000` status-board run as a pure function

`fetchForDate` (lines 106-166) with the filtered-search path, and the main
body: fetch today first, decide the switch, fetch tomorrow if needed.
`generatedAt` is a timestamp parameter; everything else is a function of
the provider responses, the configuration, and "now". -/

namespace Part000

/-- A search candidate as `fetchForDate` reads it. -/
structure SvcCand where
  serviceUid : Option String := none
  runDate : Option Int := none
  locDep : Option Nat := none
  destCrs : Option String := none
  deriving DecidableEq

/-- A detail response: its call pattern. -/
structure Detail0 where
  locations : List Loc := []

/-- The payload written to `status.json` (computational fields). -/
structure FullPayload where
  generatedAt : String
  date : Int
  serviceUid : Option String := none
  runDate : Option Int := none
  origin : Option CallInfo := none
  destination : Option CallInfo := none
  status : String
  note : Option String := none
  deriving DecidableEq

/-- Candidate choice on the filtered path (`part_000` lines 114-115):
prefer a candidate whose first destination is the configured one, else the
first candidate. -/
def chooseCand (GBTT : Nat) (destCRS : String) (rawServices : List SvcCand) :
    Option SvcCand :=
  ((rawServices.filter (fun s => s.locDep == some GBTT)).find?
      (fun s => s.destCrs == some destCRS)).orElse
    (fun _ => (rawServices.filter (fun s => s.locDep == some GBTT)).head?)

/-- `fetchForDate` from `part_000` lines 106-166 (filtered-search path):
the `searchCandidates` pre-filter on the booked departure, the candidate
choice, the detail lookup (whose failure propagates to the main `catch`),
and the payload assembly through `callInfo` and `overallStatus`. -/
def fetchForDate (generatedAt : String) (dateN : Int) (GBTT : Nat)
    (originCRS destCRS : String) (rawServices : List SvcCand)
    (detailFetch : String → Int → Except String Detail0) : Except String FullPayload :=
  match chooseCand GBTT destCRS rawServices with
  | none =>
    .ok { generatedAt := generatedAt, date := dateN, status := "not_found",
          note := some "Booked service not found in search results." }
  | some c =>
    match c.serviceUid, c.runDate with
    | some uid, some rd =>
      match detailFetch uid rd with
      | .error e => .error e
      | .ok detail =>
        .ok { generatedAt := generatedAt, date := dateN, serviceUid := some uid,
              runDate := some rd,
              origin := callInfo (detail.locations.find? (fun l => l.crs == originCRS)),
              destination := callInfo (detail.locations.find? (fun l => l.crs == destCRS)),
              status :=
                overallStatus
                  (callInfo (detail.locations.find? (fun l => l.crs == originCRS)))
                  (callInfo (detail.locations.find? (fun l => l.crs == destCRS))) }
    | _, _ => .error "search candidate missing serviceUid or runDate"

/-- The fields of the payload that `shouldSwitch` reads. -/
def decisionView (p : FullPayload) : Payload :=
  { status := p.status, origin := p.origin, destination := p.destination }

/-- Blank out the generation timestamp, for comparing two runs. -/
def stripGeneratedAt (p : FullPayload) : FullPayload :=
  { p with generatedAt := "" }

/-- The `part_000` main body (lines 185-199) as a pure function: fetch
today first, switch to tomorrow when `shouldSwitch` says so; a failure
surfaces as the error branch (the JS `catch` writes an error record). -/
def runStatusBoard (ts : String) (nowM GBTT grace : Nat) (dToday dTomorrow : Int)
    (originCRS destCRS : String) (sToday sTomorrow : List SvcCand)
    (detailFetch : String → Int → Except String Detail0) : Except String FullPayload :=
  match fetchForDate ts dToday GBTT originCRS destCRS sToday detailFetch with
  | .error e => .error e
  | .ok todayPayload =>
    if shouldSwitch GBTT grace nowM (decisionView todayPayload) then
      fetchForDate ts dTomorrow GBTT originCRS destCRS sTomorrow detailFetch
    else .ok todayPayload

end Part000

/-- The timestamp parameter flows only into the `generatedAt` field. -/
theorem fetchForDate_stamp (ts : String) (dateN : Int) (GBTT : Nat)
    (oCRS dCRS : String) (services : List Part000.SvcCand)
    (df : String → Int → Except String Part000.Detail0) :
    Part000.fetchForDate ts dateN GBTT oCRS dCRS services df =
      (Part000.fetchForDate "" dateN GBTT oCRS dCRS services df).map
        (fun p => { p with generatedAt := ts }) := by
  unfold Part000.fetchForDate
  cases hc : Part000.chooseCand GBTT dCRS services with
  | none => rfl
  | some c =>
    dsimp only
    cases hu : c.serviceUid with
    | none => rfl
    | some uid =>
      cases hr : c.runDate with
      | none => rfl
      | some rd =>
        dsimp only
        cases hd : df uid rd with
        | error e => rfl
        | ok detail => rfl


/-- C9: two runs over identical provider responses and an identical "now"
produce identical output records except for the `generatedAt` timestamp
field, which carries exactly the wall-clock value of that run.  (The
embedding makes every provider response and "now" an explicit argument, so
run-to-run variation can enter only through them and the timestamp;
`JSON.stringify` of equal records is byte-identical.) -/
theorem c9_idempotent_output :
    ∀ (ts1 ts2 : String) (nowM GBTT grace : Nat) (dT dTm : Int) (oCRS dCRS : String)
      (sT sTm : List Part000.SvcCand)
      (df : String → Int → Except String Part000.Detail0),
      (Part000.runStatusBoard ts1 nowM GBTT grace dT dTm oCRS dCRS sT sTm df).map
          Part000.stripGeneratedAt =
        (Part000.runStatusBoard ts2 nowM GBTT grace dT dTm oCRS dCRS sT sTm df).map
          Part000.stripGeneratedAt ∧
      (∀ p, Part000.runStatusBoard ts1 nowM GBTT grace dT dTm oCRS dCRS sT sTm df = .ok p →
        p.generatedAt = ts1) := by
  intro ts1 ts2 nowM GBTT grace dT dTm oCRS dCRS sT sTm df
  have key : ∀ ts, Part000.runStatusBoard ts nowM GBTT grace dT dTm oCRS dCRS sT sTm df =
      (Part000.runStatusBoard "" nowM GBTT grace dT dTm oCRS dCRS sT sTm df).map
        (fun p => { p with generatedAt := ts }) := by
    intro ts
    unfold Part000.runStatusBoard
    rw [fetchForDate_stamp ts dT GBTT oCRS dCRS sT df,
        fetchForDate_stamp ts dTm GBTT oCRS dCRS sTm df]
    cases h0 : Part000.fetchForDate "" dT GBTT oCRS dCRS sT df with
    | error e => rfl
    | ok p =>
      dsimp only [Except.map]
      have hdv : Part000.decisionView { p with generatedAt := ts } =
          Part000.decisionView p := rfl
      rw [hdv]
      cases hsw : Part000.shouldSwitch GBTT grace nowM (Part000.decisionView p) with
      | false => simp [hsw]
      | true => simp only [hsw, if_true]
  constructor
  · rw [key ts1, key ts2]
    cases Part000.runStatusBoard "" nowM GBTT grace dT dTm oCRS dCRS sT sTm df with
    | error e => rfl
    | ok p => rfl
  · intro p hp
    rw [key ts1] at hp
    cases h : Part000.runStatusBoard "" nowM GBTT grace dT dTm oCRS dCRS sT sTm df with
    | error e => rw [h] at hp; simp [Except.map] at hp
    | ok q =>
      rw [h] at hp
      simp only [Except.map, Except.ok.injEq] at hp
      rw [← hp]

/-- Witness for C9: a concrete run (empty searches) stamps its own
timestamp into the payload. -/
theorem c9_witness :
    Part000.FullPayload.generatedAt
      { generatedAt := "T1", date := 1, status := "not_found",
        note := some "Booked service not found in search results." } = "T1" :=
  (c9_idempotent_output "T1" "T2" 0 464 2 0 1 "STE" "WIM" [] []
    (fun _ _ => .error "na")).2 _ rfl
